import Mathlib

/-!
Verification of the archive acquisition subsystem of the recsys repository
(src/rec_sys/pipelines/raw/nodes.py): URL classification, download, and ZIP
extraction. Network and filesystem effects are embedded as explicit oracles
and state; the zipfile and pathlib libraries are modelled by functions whose
doc comments state the modelled behaviour.
-/

namespace RecSys

/-- Models Python str.lower applied character by character (the code only
lower-cases ASCII header values and extensions). -/
def lowerStr (s : String) : String :=
  String.mk (s.toList.map Char.toLower)

/-- Boolean test that the first character list is a leading segment of the
second. -/
def leadsList : List Char → List Char → Bool
  | [], _ => true
  | _ :: _, [] => false
  | a :: as, b :: bs => a == b && leadsList as bs

/-- Boolean substring occurrence test on character lists. -/
def subOccurs (needle : List Char) : List Char → Bool
  | [] => needle.isEmpty
  | c :: rest => leadsList needle (c :: rest) || subOccurs needle rest

/-- Models the Python membership test needle in hay on strings. -/
def strContains (hay needle : String) : Bool :=
  subOccurs needle.toList hay.toList

/-- Split a character list on a separator character, keeping empty pieces,
with the semantics of Python str.split on a one-character separator. -/
def splitChar (sep : Char) : List Char → List (List Char)
  | [] => [[]]
  | c :: rest =>
    let r := splitChar sep rest
    if c == sep then [] :: r
    else
      match r with
      | [] => [[c]]
      | h :: t => (c :: h) :: t

/-- Break a character list around the first occurrence of a separator list,
returning the pieces before and after it, or nothing when it does not occur. -/
def splitFirstSub (sep : List Char) : List Char → Option (List Char × List Char)
  | [] => if sep.isEmpty then some ([], []) else none
  | c :: rest =>
    if leadsList sep (c :: rest) then some ([], (c :: rest).drop sep.length)
    else
      match splitFirstSub sep rest with
      | none => none
      | some (b, a) => some (c :: b, a)

/-- Models pathlib PurePosixPath(p).name: the final path component, with empty
and single-dot components dropped. -/
def pathName (p : String) : String :=
  let parts := (splitChar '/' p.toList).filter
    (fun s => !(s.isEmpty) && s != ['.'])
  String.mk (parts.getLastD [])

/-- Index of the last occurrence of a dot in a character list. -/
def lastDotIdx : List Char → Option Nat
  | [] => none
  | c :: rest =>
    match lastDotIdx rest with
    | some i => some (i + 1)
    | none => if c == '.' then some 0 else none

/-- Models the CPython suffix computation on a file name: name[i:] where i is
the index of the last dot, provided 0 < i < len(name) - 1, and empty
otherwise. -/
def suffixChars (name : List Char) : List Char :=
  match lastDotIdx name with
  | none => []
  | some i => if 0 < i && i < name.length - 1 then name.drop i else []

/-- Models pathlib PurePosixPath(p).suffix. -/
def pathSuffix (p : String) : String :=
  String.mk (suffixChars (pathName p).toList)

/-- Models urllib.parse urlparse(url).path: the query and fragment are
stripped, and for a scheme://authority/path URL the path starts at the first
slash after the authority; a string without the scheme separator is treated
as a bare path. -/
def urlparsePath (url : String) : String :=
  let noFrag := (splitChar '#' url.toList).headD []
  let noQuery := (splitChar '?' noFrag).headD []
  match splitFirstSub [':', '/', '/'] noQuery with
  | none => String.mk noQuery
  | some (_, after) =>
    match splitChar '/' after with
    | [] => ""
    | [_] => ""
    | _ :: segs => String.mk ('/' :: List.intercalate ['/'] segs)

/-- Outcome of the metadata HEAD probe as the requests library surfaces it: a
2xx response carrying the Content-Type header value (the empty string when
the header is absent), a non-2xx status turned into an HTTPError exception by
raise_for_status, or a transport-level RequestException (connection failure,
timeout, malformed URL) carrying its message. -/
inductive HeadResult where
  | ok (contentType : String)
  | httpError (status : Nat) (msg : String)
  | netError (msg : String)
deriving DecidableEq

/-- Outcome of the full-content GET request, with the same three cases as the
HEAD probe. -/
inductive GetResult where
  | ok (content : List Nat)
  | httpError (status : Nat) (msg : String)
  | netError (msg : String)
deriving DecidableEq

/-- The network collaborator: the responses the remote side gives to the HEAD
probe and to the GET fetch for each URL. -/
structure Net where
  head : String → HeadResult
  get : String → GetResult

/-- Embeds check_url_is_a_zip_from_header (nodes.py lines 16-56): issue a
HEAD request; on a 2xx response lower-case the Content-Type header and look
for the two ZIP tokens; every requests exception (the HTTPError raised by
raise_for_status as well as transport errors and invalid URLs) is caught and
becomes a negative verdict with an explanatory message, so the function
always returns a pair and never raises. -/
def check_url_is_a_zip_from_header (head : String → HeadResult) (url : String) :
    Bool × String :=
  match head url with
  | .ok ct =>
    let content_type := lowerStr ct
    if strContains content_type "application/zip"
        || strContains content_type "application/x-zip-compressed" then
      (true, "Based on Content-Type header: \x27" ++ content_type
        ++ "\x27, it is identified as a ZIP file.")
    else
      (false, "Content-Type header \x27" ++ content_type
        ++ "\x27 does not indicate a ZIP file.")
  | .httpError _ m =>
    (false, "Could not check URL due to network error or invalid URL: " ++ m)
  | .netError m =>
    (false, "Could not check URL due to network error or invalid URL: " ++ m)

/-- Embeds the extension-based classification block of download_file_from_url
(nodes.py lines 96-115), returning the verdict, its message, and the number
of HEAD probes performed: match on the lower-cased URL path suffix; .zip is
positive, an empty suffix is negative, any other suffix containing a dot is
negative, and only a non-empty dotless suffix falls through to the
Content-Type probe. -/
def classify (net : Net) (url : String) : Bool × String × Nat :=
  let path := urlparsePath url
  let file_extension := lowerStr (pathSuffix path)
  if file_extension = ".zip" then
    (true, "Based on URL extension: \x27" ++ file_extension
      ++ "\x27, it appears to be a ZIP file.", 0)
  else if file_extension = "" then
    (false,
      "The URL does not have a file extension, cannot determine if it is a ZIP file.",
      0)
  else if strContains file_extension "." then
    (false, "Based on URL extension: \x27" ++ file_extension
      ++ "\x27, it does not appear to be a ZIP file.", 0)
  else
    let r := check_url_is_a_zip_from_header net.head url
    (r.1, r.2, 1)

/-- The exception kinds the acquisition code raises. -/
inductive PyError where
  | valueError (msg : String)
  | runtimeError (msg : String)
deriving DecidableEq

/-- Result of download_file_from_url, together with how many HEAD probes and
GET fetches were issued during the call. -/
structure DownloadResult where
  outcome : Except PyError (List Nat × String)
  headCalls : Nat
  getCalls : Nat

/-- Embeds download_file_from_url (nodes.py lines 59-139): derive the file
name from the URL path, classify unless omit_verification is set, then if the
verdict is positive or verification is omitted issue the GET, where both a
non-2xx status (raise_for_status) and a transport error surface as
RuntimeError wrapping the exception text (the TypeError handler of the source
is unreachable here because the url argument is always a string); otherwise
raise ValueError embedding the URL and the verdict message. -/
def download_file_from_url (net : Net) (url : String)
    (omit_verification : Bool) : DownloadResult :=
  let path := urlparsePath url
  let file_name := pathName path
  let v :=
    if omit_verification then
      (true, "Verification of the file type is omitted, assuming it is a ZIP file.",
        0)
    else
      classify net url
  let is_zip := v.1
  let message := v.2.1
  let headCalls := v.2.2
  if is_zip || omit_verification then
    match net.get url with
    | .ok content => ⟨.ok (content, file_name), headCalls, 1⟩
    | .httpError _ m =>
      ⟨.error (.runtimeError ("Error downloading the file: " ++ m)), headCalls, 1⟩
    | .netError m =>
      ⟨.error (.runtimeError ("Error downloading the file: " ++ m)), headCalls, 1⟩
  else
    ⟨.error (.valueError ("The url provided " ++ url
      ++ " doesn\x27t correspond to a ZIP file. " ++ message)), headCalls, 0⟩

/-- The filesystem as the extraction code touches it: the directories that
exist and the files written, most recent write first. -/
structure FS where
  dirs : List String
  files : List (String × List Nat)
deriving DecidableEq

/-- The proper ancestors of a slash-separated path, the directories that
os.makedirs materializes on the way to the leaf. -/
def parentChain (p : String) : List String :=
  let parts := splitChar '/' p.toList
  ((List.range (parts.length - 1)).map
    (fun i => String.mk (List.intercalate ['/'] (parts.take (i + 1))))).filter
    (fun s => s != "")

/-- Models os.makedirs(p, exist_ok=True): the path and all its missing
ancestors come to exist; creation is idempotent for membership. -/
def mkdirs (fs : FS) (p : String) : FS :=
  { fs with dirs := parentChain p ++ p :: fs.dirs }

/-- Destination path of an archive entry: the target directory joined with
the entry relative name, as os.path.join does inside extractall. -/
def joinPath (d name : String) : String :=
  d ++ "/" ++ name

/-- An archive body: the named entries with their byte contents. -/
abbrev ZipEntries := List (String × List Nat)

/-- Write one archive entry under the target directory, as extractall does;
a later write of the same path shadows an earlier one. -/
def writeEntry (d : String) (fs : FS) (e : String × List Nat) : FS :=
  { fs with files := (joinPath d e.1, e.2) :: fs.files }

/-- The content of the file at a path, the most recent write winning. -/
def findFile : List (String × List Nat) → String → Option (List Nat)
  | [], _ => none
  | kv :: rest, p => if kv.1 = p then some kv.2 else findFile rest p

/-- Embeds extract_zip_content (nodes.py lines 142-166), parameterized by the
zipfile library semantics parse, which yields the entries of a structurally
valid ZIP byte sequence and nothing for invalid bytes: the target directory
is created first with os.makedirs, then the byte stream is opened as an
archive; invalid bytes (zipfile.BadZipFile) become a ValueError naming the
file, and for valid bytes every entry is written under the directory. -/
def extract_zip_content (parse : List Nat → Option ZipEntries)
    (zip_content : List Nat) (zip_file_name : String) (extract_to_dir : String)
    (fs : FS) : Except PyError Unit × FS :=
  let fs1 := mkdirs fs extract_to_dir
  match parse zip_content with
  | none =>
    (.error (.valueError ("Error: The downloaded file \x27" ++ zip_file_name
      ++ "\x27 is not a valid zip file.")), fs1)
  | some entries =>
    (.ok (), entries.foldl (fun acc e => writeEntry extract_to_dir acc e) fs1)

/-- Result of download_and_extract_zip: the outcome, the final filesystem,
and the network calls made. -/
structure AcquireResult where
  outcome : Except PyError Unit
  fs : FS
  headCalls : Nat
  getCalls : Nat

/-- Embeds download_and_extract_zip (nodes.py lines 169-181): download, then
extract; an exception raised by the download propagates before extraction is
reached, leaving the filesystem untouched. -/
def download_and_extract_zip (net : Net) (parse : List Nat → Option ZipEntries)
    (fs : FS) (url : String) (extract_to_dir : String)
    (omit_verification : Bool) : AcquireResult :=
  let d := download_file_from_url net url omit_verification
  match d.outcome with
  | .error e => ⟨.error e, fs, d.headCalls, d.getCalls⟩
  | .ok (url_content, file_name) =>
    let r := extract_zip_content parse url_content file_name extract_to_dir fs
    ⟨r.1, r.2, d.headCalls, d.getCalls⟩

/-! Supporting lemmas about the path suffix and the classifier. -/

/-- The character found at the index reported by lastDotIdx is a dot. -/
theorem lastDotIdx_drop : ∀ (l : List Char) (i : Nat), lastDotIdx l = some i →
    ∃ t, l.drop i = '.' :: t := by
  intro l
  induction l with
  | nil => intro i h; simp [lastDotIdx] at h
  | cons c rest ih =>
    intro i h
    simp only [lastDotIdx] at h
    cases hr : lastDotIdx rest with
    | some j =>
      rw [hr] at h
      simp only [Option.some.injEq] at h
      subst h
      simpa using ih j hr
    | none =>
      rw [hr] at h
      by_cases hc : c == '.'
      · rw [if_pos hc] at h
        simp only [Option.some.injEq] at h
        subst h
        have : c = '.' := by simpa using hc
        subst this
        exact ⟨rest, rfl⟩
      · rw [if_neg hc] at h
        cases h

/-- The data of a lower-cased string is the lower-cased data. -/
theorem lowerStr_data (s : String) :
    (lowerStr s).data = s.data.map Char.toLower := rfl

/-- A path suffix is either empty or begins with a dot, exactly as the
CPython computation guarantees. -/
theorem pathSuffix_shape (p : String) :
    pathSuffix p = "" ∨ ∃ t, (pathSuffix p).data = '.' :: t := by
  have hd : (pathSuffix p).data = suffixChars (pathName p).toList := rfl
  unfold suffixChars at hd
  cases hld : lastDotIdx (pathName p).toList with
  | none =>
    simp only [hld] at hd
    exact Or.inl (congrArg String.mk hd)
  | some i =>
    simp only [hld] at hd
    by_cases hc : (0 < i && i < (pathName p).toList.length - 1) = true
    · rw [if_pos hc] at hd
      obtain ⟨t, ht⟩ := lastDotIdx_drop _ i hld
      exact Or.inr ⟨t, by rw [hd, ht]⟩
    · rw [if_neg hc] at hd
      exact Or.inl (congrArg String.mk hd)

/-- A string whose data begins with a dot contains a dot. -/
theorem strContains_dot_of_data {s : String} {t : List Char}
    (h : s.data = '.' :: t) : strContains s "." = true := by
  unfold strContains
  have hl : s.toList = '.' :: t := h
  rw [hl]
  show subOccurs ['.'] ('.' :: t) = true
  simp [subOccurs, leadsList]

/-- The Content-Type probe branch of the classifier is dead code: a non-empty
path suffix always begins with a dot, so the third branch of the match fires
for every non-.zip extension and the classification issues zero HEAD probes
for every URL, whatever the network would have answered. -/
theorem classify_never_probes (net : Net) (url : String) :
    (classify net url).2.2 = 0 := by
  simp only [classify]
  rcases pathSuffix_shape (urlparsePath url) with h | ⟨t, h⟩
  · rw [h]
    have h0 : lowerStr "" = "" := rfl
    rw [h0, if_neg (by decide : ¬("" : String) = ".zip"), if_pos rfl]
  · have hlow : (lowerStr (pathSuffix (urlparsePath url))).data
        = '.' :: t.map Char.toLower := by
      rw [lowerStr_data, h]
      simp only [List.map_cons]
      rw [show Char.toLower '.' = '.' from by decide]
    by_cases hz : lowerStr (pathSuffix (urlparsePath url)) = ".zip"
    · rw [if_pos hz]
    · rw [if_neg hz]
      have hne : ¬ lowerStr (pathSuffix (urlparsePath url)) = "" := by
        intro he
        rw [he] at hlow
        cases hlow
      rw [if_neg hne]
      have hcon : strContains (lowerStr (pathSuffix (urlparsePath url))) "." = true :=
        strContains_dot_of_data hlow
      rw [if_pos hcon]

/-! Concrete collaborators used in closed theorems and witnesses. -/

/-- A network whose HEAD probe always reports a ZIP Content-Type and whose
GET always returns a one-byte body. -/
def net0 : Net :=
  ⟨fun _ => .ok "application/zip", fun _ => .ok [7]⟩

/-- A network whose GET always fails with a 404 status raised by
raise_for_status. -/
def netHttp : Net :=
  ⟨fun _ => .ok "", fun _ =>
    .httpError 404 "404 Client Error: Not Found for url: https://example.org/a.zip"⟩

/-- A network whose GET always fails with a transport-level error. -/
def netDown : Net :=
  ⟨fun _ => .ok "", fun _ => .netError "connection refused"⟩

/-- A network whose HEAD probe reports a non-ZIP Content-Type. -/
def netProbeA : Net :=
  ⟨fun _ => .ok "text/html", fun _ => .ok [7]⟩

/-- A network whose HEAD probe fails at the transport level. -/
def netProbeB : Net :=
  ⟨fun _ => .netError "probe exploded", fun _ => .ok [7]⟩

/-- A zipfile semantics for witnesses: the byte sequence [1, 2] is the only
structurally valid archive and holds the entries a.txt and sub/b.txt. -/
def parse0 : List Nat → Option ZipEntries :=
  fun b => if b = [1, 2] then some [("a.txt", [65]), ("sub/b.txt", [66])] else none

/-- Constructor tag of a download outcome: 0 for ValueError, 1 for
RuntimeError, 2 for success. -/
def outcomeKind : Except PyError (List Nat × String) → Nat
  | .error (.valueError _) => 0
  | .error (.runtimeError _) => 1
  | .ok _ => 2

/-! Claim theorems. -/

/-- C1: the claim says a URL with a non-empty, non-.zip extension triggers
exactly one Content-Type probe whose answer decides the verdict. The code
disagrees: for the URL https://example.org/data/set.csv the classification
makes zero HEAD probes and returns a negative verdict based on the extension
alone, even though the probe, had it been made, would have identified a ZIP
Content-Type. -/
theorem csv_extension_classified_without_probe :
    classify net0 "https://example.org/data/set.csv"
      = (false,
         "Based on URL extension: \x27.csv\x27, it does not appear to be a ZIP file.",
         0) ∧
    (check_url_is_a_zip_from_header net0.head "https://example.org/data/set.csv").1
      = true := by
  decide

/-- C7: for every URL whose lower-cased path suffix is .zip, the
classification returns a positive verdict and performs no HEAD probe. -/
theorem zip_extension_positive_without_probe (net : Net) (url : String)
    (h : lowerStr (pathSuffix (urlparsePath url)) = ".zip") :
    classify net url
      = (true, "Based on URL extension: \x27.zip\x27, it appears to be a ZIP file.",
         0) := by
  simp only [classify, h, if_true]
  decide

/-- Witness for C7 at the spec example URL. -/
theorem zip_extension_positive_witness :
    classify net0 "https://example.org/data/set.zip"
      = (true, "Based on URL extension: \x27.zip\x27, it appears to be a ZIP file.",
         0) :=
  zip_extension_positive_without_probe net0 "https://example.org/data/set.zip"
    (by decide)

/-- C8: for every URL whose path has no extension at all, the classification
returns a negative verdict and performs no HEAD probe. -/
theorem no_extension_negative_without_probe (net : Net) (url : String)
    (h : pathSuffix (urlparsePath url) = "") :
    classify net url
      = (false,
         "The URL does not have a file extension, cannot determine if it is a ZIP file.",
         0) := by
  simp only [classify, h]
  rw [show lowerStr "" = "" from rfl,
    if_neg (by decide : ¬("" : String) = ".zip"), if_pos rfl]

/-- Witness for C8 at the spec example URL. -/
theorem no_extension_negative_witness :
    classify net0 "https://example.org/download"
      = (false,
         "The URL does not have a file extension, cannot determine if it is a ZIP file.",
         0) :=
  no_extension_negative_without_probe net0 "https://example.org/download" (by decide)

/-- C9: a failing HEAD probe, whether a non-2xx status raised by
raise_for_status or a transport-level error, is caught inside the probe
function, which returns a negative verdict paired with a message naming the
cause instead of raising. -/
theorem probe_failure_yields_negative_verdict (head : String → HeadResult)
    (url : String) (st : Nat) (m : String)
    (h : head url = .httpError st m ∨ head url = .netError m) :
    check_url_is_a_zip_from_header head url
      = (false, "Could not check URL due to network error or invalid URL: " ++ m) := by
  rcases h with h | h <;> simp [check_url_is_a_zip_from_header, h]

/-- Witness for C9 with a transport-level probe failure. -/
theorem probe_failure_witness :
    check_url_is_a_zip_from_header netProbeB.head "https://example.org/x.csv"
      = (false,
         "Could not check URL due to network error or invalid URL: "
           ++ "probe exploded") :=
  probe_failure_yields_negative_verdict netProbeB.head "https://example.org/x.csv"
    0 "probe exploded" (Or.inr rfl)

/-- C6: with omit_verification set, the download never consults the HEAD
oracle: it issues zero HEAD probes, exactly one GET, and its entire result is
unchanged when the HEAD oracle is replaced by any other, whatever the URL
looks like. -/
theorem omit_verification_skips_sniffer (net net2 : Net) (url : String)
    (h : net.get = net2.get) :
    download_file_from_url net url true = download_file_from_url net2 url true ∧
    (download_file_from_url net url true).headCalls = 0 ∧
    (download_file_from_url net url true).getCalls = 1 := by
  have h2 : net.get url = net2.get url := by rw [h]
  refine ⟨?_, ?_, ?_⟩ <;>
    simp only [download_file_from_url, if_true, Bool.or_true] <;>
    rw [h2] <;>
    cases net2.get url <;> rfl

/-- Witness for C6: two networks sharing the GET oracle but with a non-ZIP
and a failing HEAD oracle respectively give identical results. -/
theorem omit_verification_witness :
    download_file_from_url netProbeA "https://example.org/page.html" true
      = download_file_from_url netProbeB "https://example.org/page.html" true ∧
    (download_file_from_url netProbeA "https://example.org/page.html" true).headCalls
      = 0 ∧
    (download_file_from_url netProbeA "https://example.org/page.html" true).getCalls
      = 1 :=
  omit_verification_skips_sniffer netProbeA netProbeB "https://example.org/page.html"
    rfl

/-- C3 counterexample: a non-2xx status on the full fetch and a transport
error surface through the very same RuntimeError constructor, so the two
failures are not distinguishable by kind, contrary to the claim. -/
theorem http_and_transport_failures_share_kind :
    outcomeKind (download_file_from_url netHttp "https://example.org/a.zip" false).outcome
      = outcomeKind (download_file_from_url netDown "https://example.org/a.zip" false).outcome ∧
    outcomeKind (download_file_from_url netHttp "https://example.org/a.zip" false).outcome
      = 1 := by
  decide

/-- C3 amended: every failure of the full fetch, non-2xx status and transport
error alike, surfaces as the single RuntimeError kind whose message wraps the
underlying exception text after the fixed downloading-error text. -/
theorem fetch_failure_surfaces_as_runtime_error (net : Net) (url : String)
    (omitv : Bool) (st : Nat) (m : String)
    (hgate : omitv = true ∨ (classify net url).1 = true)
    (hget : net.get url = .httpError st m ∨ net.get url = .netError m) :
    (download_file_from_url net url omitv).outcome
      = .error (.runtimeError ("Error downloading the file: " ++ m)) := by
  rcases hgate with rfl | hc
  · simp only [download_file_from_url, if_true, Bool.or_true]
    rcases hget with h | h <;> rw [h]
  · simp only [download_file_from_url]
    rcases hget with h | h <;>
      cases omitv <;>
      simp [hc, h]

/-- Witness for C3 amended, at a transport failure with verification on. -/
theorem fetch_failure_runtime_error_witness :
    (download_file_from_url netDown "https://example.org/a.zip" false).outcome
      = .error (.runtimeError ("Error downloading the file: " ++ "connection refused")) :=
  fetch_failure_surfaces_as_runtime_error netDown "https://example.org/a.zip" false
    0 "connection refused" (Or.inr (by decide)) (Or.inr rfl)

/-- C2: when the verdict is negative and verification is not omitted, the
acquisition raises a ValueError embedding the URL and the verdict reason,
performs no GET fetch, and leaves the filesystem exactly as it was, the
extraction directory included. -/
theorem negative_verdict_fails_before_fetch_and_mkdir (net : Net)
    (parse : List Nat → Option ZipEntries) (fs : FS) (url dir : String)
    (h : (classify net url).1 = false) :
    download_and_extract_zip net parse fs url dir false
      = ⟨.error (.valueError ("The url provided " ++ url
          ++ " doesn\x27t correspond to a ZIP file. " ++ (classify net url).2.1)),
         fs, (classify net url).2.2, 0⟩ := by
  have hdl : download_file_from_url net url false
      = ⟨.error (.valueError ("The url provided " ++ url
          ++ " doesn\x27t correspond to a ZIP file. " ++ (classify net url).2.1)),
         (classify net url).2.2, 0⟩ := by
    simp [download_file_from_url, h]
  simp [download_and_extract_zip, hdl]

/-- Witness for C2 at the extensionless spec example URL. -/
theorem negative_verdict_witness :
    download_and_extract_zip net0 parse0 ⟨[], []⟩ "https://example.org/download"
        "data/raw" false
      = ⟨.error (.valueError ("The url provided " ++ "https://example.org/download"
          ++ " doesn\x27t correspond to a ZIP file. "
          ++ (classify net0 "https://example.org/download").2.1)),
         ⟨[], []⟩, (classify net0 "https://example.org/download").2.2, 0⟩ :=
  negative_verdict_fails_before_fetch_and_mkdir net0 parse0 ⟨[], []⟩
    "https://example.org/download" "data/raw" (by decide)

/-- C10: when the full fetch fails, with a non-2xx status or a transport
error, the combined download-and-extract raises before extraction is
reached: the filesystem is returned unchanged and the outcome is an error. -/
theorem fetch_failure_leaves_filesystem_untouched (net : Net)
    (parse : List Nat → Option ZipEntries) (fs : FS) (url dir : String)
    (omitv : Bool) (st : Nat) (m : String)
    (hget : net.get url = .httpError st m ∨ net.get url = .netError m) :
    (download_and_extract_zip net parse fs url dir omitv).fs = fs ∧
    ∃ e, (download_and_extract_zip net parse fs url dir omitv).outcome
      = .error e := by
  have hdl : ∃ e, (download_file_from_url net url omitv).outcome
      = Except.error e := by
    rcases hget with h | h <;>
      simp only [download_file_from_url, h] <;>
      split <;>
      try split
    all_goals exact ⟨_, rfl⟩
  obtain ⟨e, he⟩ := hdl
  constructor
  · simp only [download_and_extract_zip, he]
  · exact ⟨e, by simp only [download_and_extract_zip, he]⟩

/-- Witness for C10 at a 404 on the fetch. -/
theorem fetch_failure_untouched_witness :
    (download_and_extract_zip netHttp parse0 ⟨[], []⟩ "https://example.org/a.zip"
        "data/raw" false).fs = ⟨[], []⟩ ∧
    ∃ e, (download_and_extract_zip netHttp parse0 ⟨[], []⟩ "https://example.org/a.zip"
        "data/raw" false).outcome = .error e :=
  fetch_failure_leaves_filesystem_untouched netHttp parse0 ⟨[], []⟩
    "https://example.org/a.zip" "data/raw" false 404
    "404 Client Error: Not Found for url: https://example.org/a.zip" (Or.inl rfl)

/-! Lemmas about writing archive entries. -/

/-- Writing entries never changes the set of directories. -/
theorem foldl_write_dirs (d : String) (l : ZipEntries) (fs : FS) :
    (l.foldl (fun acc e => writeEntry d acc e) fs).dirs = fs.dirs := by
  induction l generalizing fs with
  | nil => rfl
  | cons x rest ih =>
    rw [List.foldl_cons, ih]
    rfl

/-- Joining distinct entry names to the same directory gives distinct
destination paths. -/
theorem joinPath_inj (d a b : String) (h : joinPath d a = joinPath d b) :
    a = b := by
  have h2 : (d ++ "/" ++ a).data = (d ++ "/" ++ b).data := congrArg String.data h
  simp only [String.data_append, List.append_assoc,
    List.append_cancel_left_eq] at h2
  cases a
  cases b
  exact congrArg String.mk h2

/-- Writing entries whose destinations differ from a path leaves the content
found at that path unchanged. -/
theorem foldl_write_untouched (d : String) (l : ZipEntries) (fs : FS)
    (k : String) (h : ∀ e ∈ l, joinPath d e.1 ≠ k) :
    findFile (l.foldl (fun acc e => writeEntry d acc e) fs).files k
      = findFile fs.files k := by
  induction l generalizing fs with
  | nil => rfl
  | cons x rest ih =>
    rw [List.foldl_cons, ih _ (fun e he => h e (List.mem_cons_of_mem _ he))]
    have hx := h x (List.mem_cons_self x rest)
    simp [writeEntry, findFile, hx]

/-- After writing a list of uniquely named entries, each entry is found at
its destination path with its own content. -/
theorem foldl_write_found (d : String) (l : ZipEntries) (fs : FS)
    (hnd : (l.map Prod.fst).Nodup) :
    ∀ e ∈ l, findFile (l.foldl (fun acc e => writeEntry d acc e) fs).files
      (joinPath d e.1) = some e.2 := by
  induction l generalizing fs with
  | nil => intro e he; cases he
  | cons x rest ih =>
    intro e he
    rw [List.foldl_cons]
    rcases List.mem_cons.mp he with rfl | hm
    · have hx : ∀ f ∈ rest, joinPath d f.1 ≠ joinPath d e.1 := by
        intro f hf hEq
        have hfe : f.1 = e.1 := joinPath_inj d f.1 e.1 hEq
        have hin : e.1 ∈ rest.map Prod.fst := hfe ▸ List.mem_map_of_mem Prod.fst hf
        exact (List.nodup_cons.mp hnd).1 hin
      rw [foldl_write_untouched d rest _ _ hx]
      simp [writeEntry, findFile]
    · exact ih (writeEntry d fs x) (List.nodup_cons.mp hnd).2 e hm

/-- C4: extracting a structurally valid archive succeeds, writes every one of
its uniquely named entries under the extraction directory at its archive
relative path with identical content, and creates the extraction directory
and all its missing ancestors. -/
theorem extract_writes_all_entries_and_creates_dir
    (parse : List Nat → Option ZipEntries) (content : List Nat)
    (fname dir : String) (fs : FS) (entries : ZipEntries)
    (hp : parse content = some entries)
    (hnd : (entries.map Prod.fst).Nodup) :
    (extract_zip_content parse content fname dir fs).1 = .ok () ∧
    (∀ e ∈ entries,
      findFile (extract_zip_content parse content fname dir fs).2.files
        (joinPath dir e.1) = some e.2) ∧
    dir ∈ (extract_zip_content parse content fname dir fs).2.dirs ∧
    ∀ d ∈ parentChain dir,
      d ∈ (extract_zip_content parse content fname dir fs).2.dirs := by
  simp only [extract_zip_content, hp]
  refine ⟨trivial, ?_, ?_, ?_⟩
  · intro e he
    exact foldl_write_found dir entries (mkdirs fs dir) hnd e he
  · rw [foldl_write_dirs]
    simp [mkdirs]
  · intro d hd
    rw [foldl_write_dirs]
    simp [mkdirs, hd]

/-- Witness for C4: the two-entry archive is written under data/raw, both
files carry their archive content, and the directory chain exists. -/
theorem extract_witness :
    (extract_zip_content parse0 [1, 2] "f.zip" "data/raw" ⟨[], []⟩).1 = .ok () ∧
    findFile (extract_zip_content parse0 [1, 2] "f.zip" "data/raw" ⟨[], []⟩).2.files
      (joinPath "data/raw" "a.txt") = some [65] ∧
    findFile (extract_zip_content parse0 [1, 2] "f.zip" "data/raw" ⟨[], []⟩).2.files
      (joinPath "data/raw" "sub/b.txt") = some [66] ∧
    "data/raw" ∈ (extract_zip_content parse0 [1, 2] "f.zip" "data/raw" ⟨[], []⟩).2.dirs := by
  have h := extract_writes_all_entries_and_creates_dir parse0 [1, 2] "f.zip"
    "data/raw" ⟨[], []⟩ [("a.txt", [65]), ("sub/b.txt", [66])] (by decide) (by decide)
  exact ⟨h.1, h.2.1 ("a.txt", [65]) (by decide),
    h.2.1 ("sub/b.txt", [66]) (by decide), h.2.2.1⟩

/-- C5: extracting bytes that are not a structurally valid archive raises a
ValueError naming the file, and the extraction directory has nonetheless been
created because os.makedirs runs before the archive is opened. -/
theorem invalid_zip_value_error_and_dir_created
    (parse : List Nat → Option ZipEntries) (content : List Nat)
    (fname dir : String) (fs : FS) (hp : parse content = none) :
    (extract_zip_content parse content fname dir fs).1
      = .error (.valueError ("Error: The downloaded file \x27" ++ fname
        ++ "\x27 is not a valid zip file.")) ∧
    (extract_zip_content parse content fname dir fs).2 = mkdirs fs dir ∧
    dir ∈ (extract_zip_content parse content fname dir fs).2.dirs := by
  simp only [extract_zip_content, hp]
  exact ⟨trivial, trivial, by simp [mkdirs]⟩

/-- Witness for C5 at a one-byte non-archive payload. -/
theorem invalid_zip_witness :
    (extract_zip_content parse0 [9] "notes.txt" "data/raw" ⟨[], []⟩).1
      = .error (.valueError ("Error: The downloaded file \x27" ++ "notes.txt"
        ++ "\x27 is not a valid zip file.")) ∧
    (extract_zip_content parse0 [9] "notes.txt" "data/raw" ⟨[], []⟩).2
      = mkdirs ⟨[], []⟩ "data/raw" ∧
    "data/raw" ∈ (extract_zip_content parse0 [9] "notes.txt" "data/raw" ⟨[], []⟩).2.dirs :=
  invalid_zip_value_error_and_dir_created parse0 [9] "notes.txt" "data/raw" ⟨[], []⟩
    (by decide)

end RecSys
